import Mathlib

/-!
Shallow embedding of the sound-test synthesis program (src/main.rs) and
verification of its specification claims.

All real-number quantities of the program are modelled over `ℚ`.  Library
facilities of fundsp (the render driver, the limiter, the noise source) are
not part of the repository sources; where a claim depends on them they are
modelled from the specification text, and each such definition says so in
its doc comment.
-/

/-- A scheduled note event, as pushed into the sequencer by
`create_audio_graph`: MIDI pitch, start and end time in seconds, fade-in and
fade-out lengths in seconds. -/
structure NoteEvent where
  midi : ℚ
  startTime : ℚ
  endTime : ℚ
  fadeIn : ℚ
  fadeOut : ℚ
deriving DecidableEq, Repr

/-- The C major scale pitch list of `create_audio_graph`
(`c_major_scale = [60.0, 62.0, 64.0, 65.0, 67.0, 69.0, 71.0, 72.0]`). -/
def c_major_scale : List ℚ := [60, 62, 64, 65, 67, 69, 71, 72]

/-- Quarter-note length used by `create_audio_graph` (`note_duration = 0.5`). -/
def note_duration : ℚ := 1/2

/-- The note schedule assembled by `create_audio_graph`: the i-th scale pitch
starts at `i * note_duration`, ends `note_duration + 1.0` seconds later, with
a 0.01 s fade-in and a 0.1 s fade-out. -/
def create_audio_graph_schedule : List NoteEvent :=
  (c_major_scale.enum).map fun p =>
    { midi := p.2
      startTime := (p.1 : ℚ) * note_duration
      endTime := (p.1 : ℚ) * note_duration + note_duration + 1
      fadeIn := 1/100
      fadeOut := 1/10 }

/-- Excitation envelope of `acoustic_guitar_hz`
(`envelope(|t| if t < 0.002 { 1.0 } else { 0.0 })`). -/
def acoustic_guitar_excitation_env (t : ℚ) : ℚ :=
  if t < 2/1000 then 1 else 0

/-- Excitation envelope of the notes assembled inside `create_audio_graph`
(`envelope(|t| if t < 0.01 { 1.0 } else { 0.0 })`). -/
def sequencer_note_excitation_env (t : ℚ) : ℚ :=
  if t < 1/100 then 1 else 0

/-- The gating envelope of `guitar_note_timed`
(`envelope(move |t| if t >= start_time && t < start_time + 0.01 { 1.0 } else { 0.0 })`). -/
def guitar_note_timed_gate (start_time t : ℚ) : ℚ :=
  if start_time ≤ t ∧ t < start_time + 1/100 then 1 else 0

/-- Output of `guitar_note_timed` at global time `t`, as a function of the
underlying guitar signal `sig` (the `acoustic_guitar_hz` output): the signal
is multiplied by the gating envelope and by the constant `0.8`.  The
`_duration` parameter is bound, exactly as in the source, and unused. -/
def guitar_note_timed_out (sig : ℚ → ℚ) (start_time _duration t : ℚ) : ℚ :=
  sig t * guitar_note_timed_gate start_time t * (8/10)

/-! ### Effect trace of `main`

The observable actions `main` can perform, in order.  The audio backend
(cpal) actions are exactly those of the live-playback path. -/

/-- An observable top-level action of the program. -/
inductive Effect where
  | defaultHost
  | defaultOutputDevice
  | defaultOutputConfig
  | buildOutputStream
  | playStream
  | sleepSixSeconds
  | renderOffline
  | saveWavFile
deriving DecidableEq, Repr

/-- Whether an effect touches the audio backend (host, device, stream). -/
def Effect.usesAudioBackend : Effect → Bool
  | .defaultHost => true
  | .defaultOutputDevice => true
  | .defaultOutputConfig => true
  | .buildOutputStream => true
  | .playStream => true
  | _ => false

/-- Effect trace of `save_to_wav`: render the graph offline, save the wave. -/
def save_to_wav_effects : List Effect := [.renderOffline, .saveWavFile]

/-- Effect trace of the live path of `main` (`run`): query the default host,
device and config, build and play a stream, sleep for the duration. -/
def live_effects : List Effect :=
  [.defaultHost, .defaultOutputDevice, .defaultOutputConfig,
   .buildOutputStream, .playStream, .sleepSixSeconds]

/-- Effect trace of `main` given the parsed `--output` argument: when an
output file is supplied, `main` calls `save_to_wav` and returns; otherwise it
runs the live-playback path. -/
def main_effects : Option String → List Effect
  | some _ => save_to_wav_effects
  | none => live_effects

/-! ### `write_data` -/

/-- The buffer filled by `write_data` for an output slice of length `len`
with `channels` interleaved channels, pulling stereo frames from
`next_sample`: the slice is cut into frames of `channels` samples (position
`j` belongs to frame `j / channels` at channel `j % channels`), one stereo
frame is pulled per output frame, and even channels receive the left sample,
odd channels the right sample. -/
def write_data (len channels : ℕ) (next_sample : ℕ → ℚ × ℚ) : List ℚ :=
  (List.range len).map fun j =>
    if (j % channels) % 2 = 0 then (next_sample (j / channels)).1
    else (next_sample (j / channels)).2

/-! ### Channel-arity algebra of the graph combinators

`create_audio_graph` composes fundsp nodes.  Each combinator checks channel
arities at assembly time; a mismatch is an assembly-time failure, modelled
here by `Option`: `none` is a channel-mismatch error, `some (i, o)` a node
with `i` input and `o` output channels. -/

/-- Channel arity of a node: (input count, output count). -/
abbrev Arity := ℕ × ℕ

/-- Series (pipe, `>>`): output arity of the left must equal input arity of
the right; otherwise assembly fails. -/
def pipeNode (l r : Option Arity) : Option Arity := do
  let a ← l
  let b ← r
  if a.2 = b.1 then pure (a.1, b.2) else none

/-- Bus (`&`): both operands must share input and output arity; outputs are
summed element-wise. -/
def busNode (l r : Option Arity) : Option Arity := do
  let a ← l
  let b ← r
  if a = b then pure a else none

/-- Stack (`|`): parallel composition, channel counts add. -/
def stackNode (l r : Option Arity) : Option Arity := do
  let a ← l
  let b ← r
  pure (a.1 + b.1, a.2 + b.2)

/-- Binary product of two nodes (`*` on nodes): output arities must agree,
inputs stack. -/
def prodNode (l r : Option Arity) : Option Arity := do
  let a ← l
  let b ← r
  if a.2 = b.2 then pure (a.1 + b.1, a.2) else none

/-- Scaling a node by a scalar constant (`* 0.15` etc.) keeps its arity. -/
def scaleNode (l : Option Arity) : Option Arity := l

def whiteNode : Option Arity := some (0, 1)
def envelopeNode : Option Arity := some (0, 1)
def pluckNode : Option Arity := some (1, 1)
def passNode : Option Arity := some (1, 1)
def bandpassNode : Option Arity := some (1, 1)
def lowpassNode : Option Arity := some (1, 1)
def dcblockNode : Option Arity := some (1, 1)
def panNode : Option Arity := some (1, 2)
def chorusNode : Option Arity := some (1, 1)
def reverbStereoNode : Option Arity := some (2, 2)
def limiterStereoNode : Option Arity := some (2, 2)

/-- Arity of the per-note guitar graph built inside `create_audio_graph`:
`white() * envelope(..) >> pluck(..) >> (pass() & bp*0.15 & bp*0.25 & bp*0.2
& bp*0.1) >> lowpass_hz(..) >> dcblock() * 0.7 >> pan(0.0)`. -/
def guitar_note_arity : Option Arity :=
  pipeNode
    (pipeNode
      (pipeNode
        (pipeNode (prodNode whiteNode envelopeNode) pluckNode)
        (busNode (busNode (busNode (busNode passNode (scaleNode bandpassNode))
          (scaleNode bandpassNode)) (scaleNode bandpassNode))
          (scaleNode bandpassNode)))
      lowpassNode)
    (pipeNode (scaleNode dcblockNode) panNode)

/-- Arity of `Sequencer::new(false, 2)`: a source with two output channels. -/
def sequencerArity : Option Arity := some (0, 2)

/-- `Sequencer::push` requires the pushed unit to have 0 inputs and exactly
the sequencer's output arity; otherwise assembly fails. -/
def sequencerPush (seq unit : Option Arity) : Option Arity := do
  let s ← seq
  let u ← unit
  if u = (0, s.2) then pure s else none

/-- The sequencer of `create_audio_graph` after its eight pushes (all eight
note instances share `guitar_note_arity`). -/
def sequencer_after_pushes : Option Arity :=
  (List.range 8).foldl (fun s _ => sequencerPush s guitar_note_arity)
    sequencerArity

/-- `Net::pipe_all(a, b)` requires the output arity of `a` to equal the input
arity of `b`. -/
def netPipeAll (a b : Option Arity) : Option Arity := pipeNode a b

/-- The fully assembled net of `create_audio_graph`: a `Net::new(0, 2)`
containing sequencer → chorus|chorus → reverb_stereo → limiter_stereo, the
chain piped with `pipe_all` and routed to the net output with `pipe_output`,
which requires the last stage's output arity to equal the net's output
arity 2. -/
def create_audio_graph_arity : Option Arity := do
  let chain ← netPipeAll
    (netPipeAll (netPipeAll sequencer_after_pushes
      (stackNode chorusNode chorusNode)) reverbStereoNode)
    limiterStereoNode
  if chain.2 = 2 then pure (0, 2) else none

/-! ### The render pipeline

The sample-producing machinery (white noise, `pluck`, `pan`, `reverb_stereo`,
`limiter_stereo`, `Wave::render`) lives in the fundsp library, outside the
repository sources.  It is modelled here from the specification: a fixed-seed
pseudo-random noise generator excites a Karplus-Strong feedback delay line,
the active notes are mixed, panned to stereo, passed through a feedback
reverb and finally through a peak limiter.  Every piece of state is explicit
and threaded, so the whole pipeline is a pure function of the graph, the
sample rate and the frame count. -/

/-- Modelled from the spec: the fixed-seed pseudo-random generator backing
the white-noise excitation (a linear congruential step). -/
def lcg (s : ℕ) : ℕ := (1103515245 * s + 12345) % 2147483648

/-- Modelled from the spec: one white-noise sample in `[-1, 1]` drawn from a
generator state. -/
def noise_sample (s : ℕ) : ℚ := (s % 2001 : ℕ) / 1000 - 1

/-- Modelled from the spec: the noise seed of the i-th note instance, a
deterministic hash of the note's position in the graph — never of any
ambient randomness. -/
def note_seed (i : ℕ) : ℕ := lcg (i + 1)

/-- Modelled from the spec: rational approximation of the 12-tone
equal-temperament pitch map `midi_hz` (the exact map is irrational; only
positivity of the resulting frequency matters to this model). -/
def midi_hz (m : ℤ) : ℚ := 440 * (1059463/1000000 : ℚ) ^ (m - 69)

/-- Modelled from the spec: Karplus-Strong delay-line length
`N = round(sampleRate / frequency)`, kept at least 2. -/
def delay_len (sample_rate : ℚ) (midi : ℚ) : ℕ :=
  max 2 (round (sample_rate / midi_hz ⌊midi⌋)).toNat

/-- Per-note synthesis state: the recirculating delay line, its head
position, the one-pole damping filter state and the private noise-generator
state. -/
structure StringState where
  line : List ℚ
  head : ℕ
  lp : ℚ
  rng : ℕ
deriving DecidableEq, Repr

/-- Modelled from the spec: the excite phase — draw a noise sample, write it
into the delay line at the head, advance the head. -/
def excite_step (st : StringState) : ℚ × StringState :=
  let rng := lcg st.rng
  let x := noise_sample rng
  ⟨x, { line := st.line.set st.head x
        head := (st.head + 1) % st.line.length
        lp := st.lp, rng := rng }⟩

/-- Modelled from the spec: the sustain phase — read the oldest sample,
damp it with a one-pole lowpass, scale by the decay gain, write it back and
advance the head (`pluck(freq, 0.996, 0.3)`). -/
def ks_step (decay damping : ℚ) (st : StringState) : ℚ × StringState :=
  let y := st.line.getD st.head 0
  let lp := (1 - damping) * y + damping * st.lp
  ⟨y, { line := st.line.set st.head (decay * lp)
        head := (st.head + 1) % st.line.length
        lp := lp, rng := st.rng }⟩

/-- Initial synthesis state of the i-th note of a schedule. -/
def init_string_state (sample_rate : ℚ) (seed : ℕ → ℕ) (i : ℕ)
    (e : NoteEvent) : StringState :=
  { line := List.replicate (delay_len sample_rate e.midi) 0
    head := 0, lp := 0, rng := seed i }

/-- A signal graph as assembled by `create_audio_graph`: the static note
schedule plus the per-note noise seeds. -/
structure Graph where
  schedule : List NoteEvent
  seed : ℕ → ℕ

/-- The graph built by `create_audio_graph`.  The `entropy` argument stands
for any ambient randomness the process could consult during assembly; the
construction never reads it — the schedule is the static C-major-scale
schedule and the noise seeds are the fixed per-note hashes. -/
def create_audio_graph (_entropy : ℕ → ℕ) : Graph :=
  { schedule := create_audio_graph_schedule, seed := note_seed }

/-- Running state of a render: one synthesis state per scheduled note plus
the reverb feedback frame. -/
structure RenderState where
  notes : List StringState
  rev : ℚ × ℚ

/-- Initial render state of a graph. -/
def init_render_state (g : Graph) (sample_rate : ℚ) : RenderState :=
  { notes := g.schedule.enum.map fun p =>
      init_string_state sample_rate g.seed p.1 p.2
    rev := (0, 0) }

/-- Modelled from the spec: equal-power center panning `pan(0.0)` (rational
approximation of the `sqrt(1/2)` channel gain). -/
def pan_frame (s : ℚ) : ℚ × ℚ := (s * (7071/10000), s * (7071/10000))

/-- The peak ceiling enforced by the limiter stage (`limiter_stereo`
enforces a ceiling of 1.0; its two arguments 0.9 and 2.0 are the attack and
release times). -/
def limiter_ceiling : ℚ := 1

/-- Modelled from the spec: the limiter stage — instant gain reduction that
scales a stereo frame down just enough to keep its peak at or below
`limiter_ceiling`. -/
def limiter_frame (fr : ℚ × ℚ) : ℚ × ℚ :=
  let peak := max |fr.1| |fr.2|
  if peak ≤ limiter_ceiling then fr
  else (limiter_ceiling / peak * fr.1, limiter_ceiling / peak * fr.2)

/-- One step of a single note at global time `t`: inactive notes contribute
silence and keep their state frozen; an active note is in the excite phase
for its first 0.01 s of local time and in the sustain phase afterwards. -/
def note_step (t : ℚ) (p : NoteEvent × StringState) : ℚ × StringState :=
  if p.1.startTime ≤ t ∧ t < p.1.endTime then
    if t - p.1.startTime < 1/100 then excite_step p.2
    else ks_step (996/1000) (3/10) p.2
  else (0, p.2)

/-- Produce one stereo frame: advance every active note, sum the
contributions, pan to stereo, add the reverb feedback (wet gain 0.4 of the
previous frame) and limit. -/
def frame_step (g : Graph) (sample_rate : ℚ) (k : ℕ) (st : RenderState) :
    (ℚ × ℚ) × RenderState :=
  let t : ℚ := k / sample_rate
  let results := (g.schedule.zip st.notes).map (note_step t)
  let mix := (results.map Prod.fst).sum
  let dry := pan_frame mix
  let wet : ℚ × ℚ := (dry.1 + (2/5) * st.rev.1, dry.2 + (2/5) * st.rev.2)
  let fr := limiter_frame wet
  (fr, { notes := results.map Prod.snd, rev := wet })

/-- Pull `n` stereo frames starting at frame index `k`. -/
def render_go (g : Graph) (sample_rate : ℚ) : ℕ → ℕ → RenderState →
    List (ℚ × ℚ)
  | _, 0, _ => []
  | k, n + 1, st =>
    let step := frame_step g sample_rate k st
    step.1 :: render_go g sample_rate (k + 1) n step.2

/-- Offline render of a graph: `n` stereo frames pulled in time order from
the initial state. -/
def render (g : Graph) (sample_rate : ℚ) (n : ℕ) : List (ℚ × ℚ) :=
  render_go g sample_rate 0 n (init_render_state g sample_rate)

/-- Modelled from the spec: the offline frame count of `Wave::render`,
`round(duration * sampleRate)`. -/
def render_length (sample_rate duration : ℚ) : ℕ :=
  (round (duration * sample_rate)).toNat

/-- Sample rate used by `save_to_wav` (`sample_rate = 44100.0`). -/
def save_to_wav_sample_rate : ℚ := 44100

/-- Render duration used by `save_to_wav` (`duration = 6.0`). -/
def save_to_wav_duration : ℚ := 6

/-- The wave rendered by `save_to_wav`: the C-major-scale graph rendered at
44100 Hz for 6.0 seconds. -/
def save_to_wav_wave (entropy : ℕ → ℕ) : List (ℚ × ℚ) :=
  render (create_audio_graph entropy) save_to_wav_sample_rate
    (render_length save_to_wav_sample_rate save_to_wav_duration)

/-! ### Helper lemmas -/

/-- The render state after advancing `n` frames from frame index `k`. -/
def advance_state (g : Graph) (sample_rate : ℚ) : ℕ → ℕ → RenderState →
    RenderState
  | _, 0, st => st
  | k, n + 1, st => advance_state g sample_rate (k + 1) n
      (frame_step g sample_rate k st).2

lemma render_go_length (g : Graph) (sample_rate : ℚ) :
    ∀ n k st, (render_go g sample_rate k n st).length = n := by
  intro n
  induction n with
  | zero => intro k st; rfl
  | succ n ih => intro k st; simp [render_go, ih]

lemma render_go_append (g : Graph) (sample_rate : ℚ) :
    ∀ n m k st, render_go g sample_rate k (n + m) st
      = render_go g sample_rate k n st
        ++ render_go g sample_rate (k + n) m
            (advance_state g sample_rate k n st) := by
  intro n
  induction n with
  | zero => intro m k st; simp [render_go, advance_state]
  | succ n ih =>
    intro m k st
    have h : n + 1 + m = (n + m) + 1 := by omega
    rw [h]
    simp only [render_go, advance_state, ih]
    simp [Nat.add_assoc, Nat.add_comm 1 n]

lemma render_go_mem_limited (g : Graph) (sample_rate : ℚ) :
    ∀ n k st f, f ∈ render_go g sample_rate k n st → ∃ x, f = limiter_frame x := by
  intro n
  induction n with
  | zero => intro k st f hf; simp [render_go] at hf
  | succ n ih =>
    intro k st f hf
    simp only [render_go, List.mem_cons] at hf
    rcases hf with hf | hf
    · exact ⟨_, hf⟩
    · exact ih _ _ _ hf

lemma limiter_frame_le (fr : ℚ × ℚ) :
    |(limiter_frame fr).1| ≤ limiter_ceiling
    ∧ |(limiter_frame fr).2| ≤ limiter_ceiling := by
  unfold limiter_frame
  set peak := max |fr.1| |fr.2| with hpeak
  by_cases h : peak ≤ limiter_ceiling
  · rw [if_pos h]
    exact ⟨le_trans (le_max_left _ _) h, le_trans (le_max_right _ _) h⟩
  · rw [if_neg h]
    have hc : (0 : ℚ) < limiter_ceiling := by norm_num [limiter_ceiling]
    have hp : (0 : ℚ) < peak := lt_trans hc (not_le.mp h)
    constructor
    · calc |limiter_ceiling / peak * fr.1|
          = limiter_ceiling / peak * |fr.1| := by
            rw [abs_mul, abs_of_pos (div_pos hc hp)]
        _ ≤ limiter_ceiling / peak * peak := by
            exact mul_le_mul_of_nonneg_left (le_max_left _ _)
              (le_of_lt (div_pos hc hp))
        _ = limiter_ceiling := div_mul_cancel₀ _ (ne_of_gt hp)
    · calc |limiter_ceiling / peak * fr.2|
          = limiter_ceiling / peak * |fr.2| := by
            rw [abs_mul, abs_of_pos (div_pos hc hp)]
        _ ≤ limiter_ceiling / peak * peak := by
            exact mul_le_mul_of_nonneg_left (le_max_right _ _)
              (le_of_lt (div_pos hc hp))
        _ = limiter_ceiling := div_mul_cancel₀ _ (ne_of_gt hp)

lemma range_map_getD (f : ℕ → ℚ) (n j : ℕ) (h : j < n) :
    ((List.range n).map f).getD j 0 = f j := by
  rw [List.getD_eq_getElem?_getD, List.getElem?_map, List.getElem?_range h]
  rfl

/-! ### Claim theorems -/

/-- C2: the note schedule assembled by `create_audio_graph` consists of
exactly eight note events whose pitches are the MIDI notes
60, 62, 64, 65, 67, 69, 71, 72 in that order, the i-th note starting at
`i * 0.5` seconds and ending 1.5 seconds after its start. -/
theorem create_audio_graph_schedule_spec :
    create_audio_graph_schedule.length = 8
    ∧ create_audio_graph_schedule.map NoteEvent.midi
        = [60, 62, 64, 65, 67, 69, 71, 72]
    ∧ ∀ i, i < 8 →
        (create_audio_graph_schedule.getD i ⟨0, 0, 0, 0, 0⟩).startTime
          = (i : ℚ) * (1/2)
        ∧ (create_audio_graph_schedule.getD i ⟨0, 0, 0, 0, 0⟩).endTime
          = (create_audio_graph_schedule.getD i ⟨0, 0, 0, 0, 0⟩).startTime
            + 3/2 := by
  refine ⟨by decide, by decide, ?_⟩
  intro i hi
  interval_cases i <;> constructor <;> norm_num [create_audio_graph_schedule,
    c_major_scale, note_duration, List.getD]

/-- C2 witness: the schedule properties at the concrete index 2. -/
theorem create_audio_graph_schedule_spec_witness :
    (create_audio_graph_schedule.getD 2 ⟨0, 0, 0, 0, 0⟩).startTime
      = ((2 : ℕ) : ℚ) * (1/2)
    ∧ (create_audio_graph_schedule.getD 2 ⟨0, 0, 0, 0, 0⟩).endTime
      = (create_audio_graph_schedule.getD 2 ⟨0, 0, 0, 0, 0⟩).startTime + 3/2 :=
  create_audio_graph_schedule_spec.2.2 2 (by norm_num)

/-- C5 counterexample: the claim asserts the excitation envelope of each
synthesized note vanishes from 0.002 s on; the notes assembled in
`create_audio_graph` use a 10 ms excitation window, so at the later time
0.005 s the envelope is still 1, not 0. -/
theorem sequencer_excitation_exceeds_two_ms :
    (2/1000 : ℚ) ≤ 5/1000
    ∧ sequencer_note_excitation_env (5/1000) = 1
    ∧ sequencer_note_excitation_env (5/1000) ≠ 0 := by
  refine ⟨by norm_num, ?_, ?_⟩ <;>
    norm_num [sequencer_note_excitation_env]

/-- C5 amended: the 2-millisecond excitation window belongs to
`acoustic_guitar_hz` (its envelope is 1 before 0.002 s and 0 from then on),
while the notes assembled in `create_audio_graph` use a 10-millisecond
window (1 before 0.01 s, 0 from then on). -/
theorem excitation_env_windows (t : ℚ) :
    (t < 2/1000 → acoustic_guitar_excitation_env t = 1)
    ∧ (2/1000 ≤ t → acoustic_guitar_excitation_env t = 0)
    ∧ (t < 1/100 → sequencer_note_excitation_env t = 1)
    ∧ (1/100 ≤ t → sequencer_note_excitation_env t = 0) := by
  refine ⟨fun h => ?_, fun h => ?_, fun h => ?_, fun h => ?_⟩
  · rw [acoustic_guitar_excitation_env, if_pos h]
  · rw [acoustic_guitar_excitation_env, if_neg (not_lt.mpr h)]
  · rw [sequencer_note_excitation_env, if_pos h]
  · rw [sequencer_note_excitation_env, if_neg (not_lt.mpr h)]

/-- C5 amended witness: the two windows evaluated at concrete times. -/
theorem excitation_env_windows_witness :
    acoustic_guitar_excitation_env (1/1000) = 1
    ∧ acoustic_guitar_excitation_env (3/1000) = 0
    ∧ sequencer_note_excitation_env (5/1000) = 1
    ∧ sequencer_note_excitation_env (2/100) = 0 :=
  ⟨(excitation_env_windows (1/1000)).1 (by norm_num),
   (excitation_env_windows (3/1000)).2.1 (by norm_num),
   (excitation_env_windows (5/1000)).2.2.1 (by norm_num),
   (excitation_env_windows (2/100)).2.2.2 (by norm_num)⟩

/-- C9: `guitar_note_timed` ignores its duration parameter entirely; its
gating envelope is 1 exactly on `[start_time, start_time + 0.01)` and 0
elsewhere, and outside that window the scaled output (gate times 0.8) is
forced to zero. -/
theorem guitar_note_timed_spec (sig : ℚ → ℚ) (s d₁ d₂ t : ℚ) :
    guitar_note_timed_out sig s d₁ t = guitar_note_timed_out sig s d₂ t
    ∧ (s ≤ t ∧ t < s + 1/100 →
        guitar_note_timed_gate s t = 1
        ∧ guitar_note_timed_out sig s d₁ t = sig t * (8/10))
    ∧ (¬(s ≤ t ∧ t < s + 1/100) →
        guitar_note_timed_gate s t = 0
        ∧ guitar_note_timed_out sig s d₁ t = 0) := by
  refine ⟨rfl, fun h => ?_, fun h => ?_⟩
  · have hg : guitar_note_timed_gate s t = 1 := by
      rw [guitar_note_timed_gate, if_pos h]
    exact ⟨hg, by rw [guitar_note_timed_out, hg]; ring⟩
  · have hg : guitar_note_timed_gate s t = 0 := by
      rw [guitar_note_timed_gate, if_neg h]
    exact ⟨hg, by rw [guitar_note_timed_out, hg]; ring⟩

/-- C9 witness: the gate and scaled output at concrete inputs, inside the
window (`t = 0`, start 0) with two different durations, and outside it. -/
theorem guitar_note_timed_spec_witness :
    (guitar_note_timed_out (fun _ => 1) 0 1 0
      = guitar_note_timed_out (fun _ => 1) 0 5 0)
    ∧ (guitar_note_timed_gate 0 0 = 1
        ∧ guitar_note_timed_out (fun _ => 1) 0 1 0
          = (fun _ => (1 : ℚ)) 0 * (8/10))
    ∧ (guitar_note_timed_gate 0 1 = 0
        ∧ guitar_note_timed_out (fun _ => 1) 0 1 1 = 0) :=
  ⟨(guitar_note_timed_spec (fun _ => 1) 0 1 5 0).1,
   (guitar_note_timed_spec (fun _ => 1) 0 1 5 0).2.1 (by norm_num),
   (guitar_note_timed_spec (fun _ => 1) 0 1 5 1).2.2 (by norm_num)⟩

/-- C7: with an output file supplied, `main` runs exactly the offline-export
effects (render offline, save the wave) and touches no audio-backend
facility (no default host, device, config, or stream). -/
theorem main_offline_avoids_backend (path : String) :
    main_effects (some path) = [Effect.renderOffline, Effect.saveWavFile]
    ∧ (main_effects (some path)).all
        (fun e => ! e.usesAudioBackend) = true :=
  ⟨rfl, rfl⟩

/-- C6: graph assembly succeeds with no channel-mismatch error: the per-note
guitar chain has arity (0, 2), all eight sequencer pushes are accepted, and
the fully assembled net (sequencer → chorus stack → stereo reverb → stereo
limiter, piped and routed to the net output) is `some (0, 2)` — zero inputs,
two outputs.  Any arity mismatch in a series, bus, stack, product, push or
pipe step would have propagated as `none`. -/
theorem create_audio_graph_assembles :
    guitar_note_arity = some (0, 2)
    ∧ sequencer_after_pushes = some (0, 2)
    ∧ create_audio_graph_arity = some (0, 2) :=
  ⟨rfl, rfl, rfl⟩

/-- C10: for every output length and channel count `n ≥ 1`, `write_data`
fills the buffer frame by frame, pulling one stereo frame per output frame
in order: sample `i * n + c` (frame `i`, channel `c < n`) is the `i`-th
pulled frame's left sample when `c` is even and its right sample when `c` is
odd; with a single channel only left samples are ever emitted. -/
theorem write_data_spec (len channels : ℕ) (next_sample : ℕ → ℚ × ℚ)
    (hch : 1 ≤ channels) (i c : ℕ) (hc : c < channels)
    (hlen : i * channels + c < len) :
    (write_data len channels next_sample).length = len
    ∧ (write_data len channels next_sample).getD (i * channels + c) 0
      = (if c % 2 = 0 then (next_sample i).1 else (next_sample i).2)
    ∧ (channels = 1 → ∀ j, j < len →
        (write_data len channels next_sample).getD j 0 = (next_sample j).1) := by
  have hpos : 0 < channels := hch
  refine ⟨by simp [write_data], ?_, ?_⟩
  · rw [write_data, range_map_getD _ _ _ hlen]
    have hmod : (i * channels + c) % channels = c := by
      rw [Nat.mul_comm i channels, Nat.mul_add_mod, Nat.mod_eq_of_lt hc]
    have hdiv : (i * channels + c) / channels = i := by
      rw [Nat.mul_comm i channels, Nat.mul_add_div hpos,
        Nat.div_eq_of_lt hc, Nat.add_zero]
    rw [hmod, hdiv]
  · intro h1 j hj
    subst h1
    rw [write_data, range_map_getD _ _ _ hj]
    simp [Nat.mod_one]

/-- C10 witness: a 4-sample buffer with 2 channels; sample `1 * 2 + 1`
(frame 1, channel 1, odd) carries the right sample of the second pull. -/
theorem write_data_spec_witness :
    (write_data 4 2 (fun k => ((k : ℚ), (k : ℚ) + 10))).getD 3 0 = 11 := by
  have h := (write_data_spec 4 2 (fun k => ((k : ℚ), (k : ℚ) + 10))
    (by norm_num) 1 1 (by norm_num) (by norm_num)).2.1
  norm_num at h
  exact h

/-- C1: the offline render performed by `save_to_wav` (44100 Hz, 6.0 s)
produces exactly 264600 = round(duration * sampleRate) stereo frames, and
they are delivered in time order: the rendered wave is a prefix of any
longer render of the same graph, so frame i is always the i-th frame pulled
from the initial state. -/
theorem save_to_wav_frame_count (entropy : ℕ → ℕ) :
    render_length save_to_wav_sample_rate save_to_wav_duration = 264600
    ∧ (save_to_wav_wave entropy).length = 264600
    ∧ ∀ m, save_to_wav_wave entropy <+:
        render (create_audio_graph entropy) save_to_wav_sample_rate
          (264600 + m) := by
  have hl : render_length save_to_wav_sample_rate save_to_wav_duration
      = 264600 := by
    norm_num [render_length, save_to_wav_sample_rate, save_to_wav_duration,
      round_eq]
    decide
  refine ⟨hl, ?_, ?_⟩
  · rw [save_to_wav_wave, render, render_go_length, hl]
  · intro m
    rw [save_to_wav_wave, hl, render, render,
      render_go_append (create_audio_graph entropy) save_to_wav_sample_rate
        264600 m 0 (init_render_state (create_audio_graph entropy)
          save_to_wav_sample_rate)]
    exact List.prefix_append _ _

/-- C3: the renderer is deterministic: two independent graph assemblies —
each free to consult ambient entropy, which the construction never reads,
its only randomness being the fixed-seed noise generator — rendered at the
same sample rate for the same length produce identical output, and in
particular two runs of the `save_to_wav` render coincide frame for frame. -/
theorem render_deterministic (e₁ e₂ : ℕ → ℕ) (sample_rate : ℚ) (n : ℕ) :
    render (create_audio_graph e₁) sample_rate n
      = render (create_audio_graph e₂) sample_rate n
    ∧ save_to_wav_wave e₁ = save_to_wav_wave e₂ :=
  ⟨rfl, rfl⟩

/-- C4: every frame of any rendered output passes through the limiter stage
last, so the absolute value of each of its two samples never exceeds the
configured peak ceiling. -/
theorem limiter_headroom (g : Graph) (sample_rate : ℚ) (n : ℕ) (f : ℚ × ℚ)
    (hf : f ∈ render g sample_rate n) :
    |f.1| ≤ limiter_ceiling ∧ |f.2| ≤ limiter_ceiling := by
  obtain ⟨x, hx⟩ := render_go_mem_limited g sample_rate n 0
    (init_render_state g sample_rate) f hf
  rw [hx]
  exact limiter_frame_le x

/-- C4 witness: the single frame of a one-frame render of the empty-schedule
graph is within the ceiling. -/
theorem limiter_headroom_witness :
    ((0 : ℚ), (0 : ℚ)) ∈ render ⟨[], fun k => k⟩ 1 1
    ∧ |(((0 : ℚ), (0 : ℚ)) : ℚ × ℚ).1| ≤ limiter_ceiling
    ∧ |(((0 : ℚ), (0 : ℚ)) : ℚ × ℚ).2| ≤ limiter_ceiling := by
  have hr : render ⟨[], fun k => k⟩ 1 1 = [(((0 : ℚ), (0 : ℚ)) : ℚ × ℚ)] := by
    simp [render, render_go, frame_step, init_render_state, init_string_state,
      note_step, pan_frame, limiter_frame, limiter_ceiling]
  have hm : (((0 : ℚ), (0 : ℚ)) : ℚ × ℚ) ∈ render ⟨[], fun k => k⟩ 1 1 := by
    rw [hr]; exact List.mem_singleton.mpr rfl
  exact ⟨hm, (limiter_headroom ⟨[], fun k => k⟩ 1 1 _ hm).1,
    (limiter_headroom ⟨[], fun k => k⟩ 1 1 _ hm).2⟩
